import Mathlib

/-!
Verification of the browser API client (`src/js/api-client.js`).

The client is modelled as a shallow embedding: browser effects become
explicit state passing over `ClientState`, and the network becomes a
function from attempt index to the outcome of that fetch attempt.
Ghost trace fields (`navigations`, `invalidations`, `puts`) record the
observable side effects (redirects, calls to `clearAuthAndRedirect`,
writes of an AuthState record to IndexedDB) so that temporal claims
("exactly one invalidation", "no token write occurred") are stated as
facts about the final state.
-/

/-- `API_BASE_URL` constant (api-client.js line 6). -/
def API_BASE_URL : String := "https://butilive.adadad1314asda.workers.dev"

/-- The stored AuthState record: token fields plus any other fields the
record may carry (the JS object is open; spreads preserve unknown fields).
A `none` token models an absent/undefined field; `some ""` models a
present but empty string (falsy in JS, like undefined). -/
structure AuthState where
  accessToken : Option String
  refreshToken : Option String
  other : List (String × String)
deriving DecidableEq, Repr

/-- The IndexedDB object store `auth_state`, holding the two keys used by
the client: `auth_state` (the AuthState record) and `install_id`. -/
structure Store where
  auth_state : Option AuthState
  install_id : Option String
deriving DecidableEq, Repr

/-- The browser-visible state the client reads and writes:
the IndexedDB store, the two sessionStorage validation flags
(`true` = present), the in-memory `window.__devicePrivateKey`, plus
ghost traces of navigations (`window.location.href` assignments),
invalidations (calls to `clearAuthAndRedirect`, recording the reason)
and puts (AuthState records written via `setInDB`). -/
structure ClientState where
  store : Store
  authValidated : Bool
  authValidatedAt : Bool
  devicePrivateKey : Option String
  navigations : List String
  invalidations : List String
  puts : List AuthState
deriving DecidableEq, Repr

/-- JS truthy-or: `x || fallback` for an optional string field
(undefined and the empty string are falsy). -/
def jsOr (x : Option String) (fallback : String) : String :=
  match x with
  | some v => if v = "" then fallback else v
  | none => fallback

/-- `clearAuthAndRedirect` (api-client.js lines 11-49).
`clearThrows` injects a failure of the awaited `store.clear()` promise
(line 27): the rejection jumps to the `catch` at line 40, so the
sessionStorage removals (lines 33-34) and the in-memory key delete
(lines 37-39) are skipped; the catch only logs.  The final navigation
(line 48) sits after the try/catch and always runs.  Console logging and
the message translation at lines 12-19 have no state effect and are not
modelled.  The call is recorded in the `invalidations` ghost trace. -/
def clearAuthAndRedirect (clearThrows : Bool) (reason : String)
    (s : ClientState) : ClientState :=
  let s1 := { s with invalidations := s.invalidations ++ [reason] }
  let s2 :=
    if clearThrows then s1
    else
      { s1 with
        store := { auth_state := none, install_id := none },
        authValidated := false,
        authValidatedAt := false,
        devicePrivateKey := none }
  { s2 with navigations := s2.navigations ++ ["./index.html"] }

/-- The translation table of `translateErrorMessage`
(api-client.js lines 55-71), as the association list of the object
literal's own properties. -/
def translations : List (String × String) :=
  [("Session expired", "Sesja wygasła"),
   ("Unauthorized", "Brak autoryzacji"),
   ("Token expired", "Token wygasł"),
   ("Device not found", "Urządzenie nie znalezione"),
   ("Device revoked", "Urządzenie zostało unieważnione"),
   ("Admin key blocked", "Klucz administratora został zablokowany"),
   ("Admin key deleted", "Klucz administratora został usunięty"),
   ("Admin key expired", "Klucz administratora wygasł"),
   ("Device not bound to any key",
    "Urządzenie nie jest powiązane z żadnym kluczem"),
   ("Refresh failed", "Odświeżanie nie powiodło się"),
   ("No refresh token", "Brak tokenu odświeżania"),
   ("Network error", "Błąd połączenia z serwerem"),
   ("Timeout", "Przekroczono limit czasu połączenia"),
   ("Failed to fetch", "Nie udało się połączyć z serwerem")]

/-- A JavaScript value as produced by `translateErrorMessage`: either a
string, or a truthy non-string value inherited from `Object.prototype`
(a function such as `toString`, or the `__proto__` object), tagged by
the property name it was read from. -/
inductive JsValue where
  | str (s : String)
  | inherited (name : String)
deriving DecidableEq, Repr

/-- The property names the object literal `translations` inherits from
`Object.prototype`: reading any of them yields a truthy non-string
value (a function, or for `__proto__` the prototype object itself). -/
def objectPrototypeProps : List String :=
  ["constructor", "hasOwnProperty", "isPrototypeOf",
   "propertyIsEnumerable", "toLocaleString", "toString", "valueOf",
   "__defineGetter__", "__defineSetter__", "__lookupGetter__",
   "__lookupSetter__", "__proto__"]

/-- `translateErrorMessage` (api-client.js lines 54-74):
`translations[error] || error`.  The property read follows JS lookup
semantics on the object literal: an own property (one of the 14 table
entries) yields its mapped string; otherwise the prototype chain is
consulted, so an `Object.prototype` property name yields the inherited
truthy non-string value, which `||` passes through; only for names
absent from both does the read give `undefined` (falsy) and `||` fall
back to `error`.  The `if t = ""` arm mirrors the `||` falsy check on
own properties (no mapped value is empty, so it never fires). -/
def translateErrorMessage (error : String) : JsValue :=
  match translations.lookup error with
  | some t => if t = "" then .str error else .str t
  | none =>
    if error ∈ objectPrototypeProps then .inherited error
    else .str error

/-- The JSON body of a response, as the three fields the client reads:
`error` (401 and refresh-failure bodies) and `access_token` /
`refresh_token` (refresh success bodies).  `none` = field absent. -/
structure Json where
  error : Option String
  access_token : Option String
  refresh_token : Option String
deriving DecidableEq, Repr

/-- An HTTP response: its status and the outcome of `response.json()`
(`none` = the body does not parse as JSON, the promise rejects). -/
structure Response where
  status : Nat
  body : Option Json
deriving DecidableEq, Repr

/-- `response.ok`: status in the 2xx range (WHATWG fetch). -/
def Response.ok (r : Response) : Bool :=
  decide (200 ≤ r.status) && decide (r.status ≤ 299)

/-- Outcome of one `fetch` attempt, as seen by `apiFetch`'s try block:
the promise resolves to a response, or rejects with an `AbortError`
(the 15-second timeout fired, line 87), or rejects with some other
error carrying a message (network/transport failure). -/
inductive FetchOutcome where
  | success (resp : Response)
  | abort
  | failure (message : String)
deriving DecidableEq, Repr

/-- Message of the error thrown on the 401 path (line 102). -/
def redirectMsg : String := "Przekierowywanie do aktywacji..."

/-- Message thrown when the final attempt times out (lines 116-118). -/
def timeoutMsg : String :=
  "Przekroczono limit czasu połączenia. Sprawdź połączenie internetowe."

/-- Message substituted for fetch-connectivity errors (lines 129-131). -/
def networkFailMsg : String :=
  "Nie udało się połączyć z serwerem. Sprawdź połączenie internetowe i spróbuj ponownie."

/-- Message thrown by `getAuthHeaders` when unauthenticated (line 158). -/
def notAuthMsg : String := "Brak autoryzacji. Zaloguj się ponownie."

/-- Generic refresh-failure reason (lines 217-219, 235). -/
def refreshFailMsg : String := "Odświeżanie nie powiodło się"

/-- Missing-refresh-token reason (lines 198-199). -/
def noRefreshTokenMsg : String := "Brak tokenu odświeżania"

/-- The message of a DOM `AbortError` rejection. -/
def abortErrMessage : String := "The operation was aborted."

/-- `maxRetries` (line 80). -/
def maxRetries : Nat := 3

/-- `baseDelay` in milliseconds (line 81). -/
def baseDelay : Nat := 500

/-- Whether the pattern is an initial segment of the character list. -/
def listStartsWith : List Char → List Char → Bool
  | [], _ => true
  | _ :: _, [] => false
  | p :: ps, c :: cs => p == c && listStartsWith ps cs

/-- Whether the pattern occurs anywhere in the character list. -/
def listContainsSub (pat : List Char) : List Char → Bool
  | [] => listStartsWith pat []
  | c :: cs => listStartsWith pat (c :: cs) || listContainsSub pat cs

/-- JS `String.prototype.includes`: `sub` occurs somewhere in `s`. -/
def includes (s sub : String) : Bool := listContainsSub sub.data s.data

/-- The reason passed to `clearAuthAndRedirect` on a 401
(lines 98-101): the parsed body's `error` field, with
`"Brak autoryzacji"` as both the parse-failure fallback and the
`||` fallback for an absent/empty field. -/
def reason401 (resp : Response) : String :=
  match resp.body with
  | some j => jsOr j.error "Brak autoryzacji"
  | none => "Brak autoryzacji"

/-- The reason passed to `clearAuthAndRedirect` on a non-2xx refresh
response (lines 215-218), with the refresh-failure fallback. -/
def reasonRefresh (resp : Response) : String :=
  match resp.body with
  | some j => jsOr j.error refreshFailMsg
  | none => refreshFailMsg

/-- What a call to `apiFetch` produced: a returned response, a thrown
error (its message), or JS `undefined` (the loop body falling through,
unreachable while `maxRetries > 0`). -/
inductive ApiResult where
  | ok (resp : Response)
  | thrown (message : String)
  | undef
deriving DecidableEq, Repr

/-- Result of a run of `apiFetch`: the final browser state, the backoff
delays slept (in order, milliseconds), the number of fetch attempts
performed, and the returned/thrown outcome. -/
structure FetchResult where
  state : ClientState
  delays : List Nat
  calls : Nat
  result : ApiResult
deriving DecidableEq, Repr

/-- The `catch` block of `apiFetch` (lines 106-146), for an error with
flag `isAbort` (`err.name === "AbortError"`) and message `msg`:
either the loop terminates with a thrown result (`Sum.inl`), or the
error is absorbed and the loop retries from `s1` (`Sum.inr`) after the
backoff computed by the caller. -/
def catchStep (attempt : Nat) (isAbort : Bool) (msg : String)
    (s1 : ClientState) : FetchResult ⊕ ClientState :=
  if isAbort = true ∧ attempt = maxRetries - 1 then
    Sum.inl { state := s1, delays := [], calls := 1, result := .thrown timeoutMsg }
  else if msg = redirectMsg ∨ attempt = maxRetries - 1 then
    if includes msg "fetch" = true then
      Sum.inl { state := s1, delays := [], calls := 1, result := .thrown networkFailMsg }
    else
      Sum.inl { state := s1, delays := [], calls := 1, result := .thrown msg }
  else Sum.inr s1

/-- The retry loop of `apiFetch` (lines 84-147).  `ar i` is the outcome
of fetch attempt `i`; `attempt` is the loop counter and `fuel` the
remaining iterations (`attempt + fuel = maxRetries` at every call).
A 401 response (lines 97-103) invalidates auth, then throws the
redirect error, which the catch block re-raises without retrying; any
other response is returned as-is (line 105); rejections go through the
catch block, retrying with delay `baseDelay * 2 ^ attempt` (lines
136-145) unless terminal.  Exhausted fuel is the loop falling through,
returning `undefined`. -/
def apiFetchAux (ar : Nat → FetchOutcome) :
    Nat → Nat → ClientState → FetchResult
  | _, 0, s => { state := s, delays := [], calls := 0, result := .undef }
  | attempt, fuel + 1, s =>
    match ar attempt with
    | .success resp =>
      if resp.status = 401 then
        match catchStep attempt false redirectMsg
            (clearAuthAndRedirect false (reason401 resp) s) with
        | Sum.inl r => r
        | Sum.inr s2 =>
          let r := apiFetchAux ar (attempt + 1) fuel s2
          { state := r.state, delays := baseDelay * 2 ^ attempt :: r.delays,
            calls := r.calls + 1, result := r.result }
      else { state := s, delays := [], calls := 1, result := .ok resp }
    | .abort =>
      match catchStep attempt true abortErrMessage s with
      | Sum.inl r => r
      | Sum.inr s2 =>
        let r := apiFetchAux ar (attempt + 1) fuel s2
        { state := r.state, delays := baseDelay * 2 ^ attempt :: r.delays,
          calls := r.calls + 1, result := r.result }
    | .failure msg =>
      match catchStep attempt false msg s with
      | Sum.inl r => r
      | Sum.inr s2 =>
        let r := apiFetchAux ar (attempt + 1) fuel s2
        { state := r.state, delays := baseDelay * 2 ^ attempt :: r.delays,
          calls := r.calls + 1, result := r.result }

/-- `apiFetch` (api-client.js lines 79-148): the retry loop started at
attempt 0 with the full budget.  The url and request options select
which server is reached; their effect is abstracted into `ar`. -/
def apiFetch (ar : Nat → FetchOutcome) (s : ClientState) : FetchResult :=
  apiFetchAux ar 0 maxRetries s

/-- Whether a fetch outcome takes the retry path of the catch block at a
non-final attempt: a timeout, or a rejection whose message is not the
401 redirect message. -/
def retryableB : FetchOutcome → Bool
  | .abort => true
  | .failure m => m != redirectMsg
  | .success _ => false

/-- The headers built by `getAuthHeaders` (lines 163-167).
`xPwaInstallId` is `none` when the `install_id` key is absent: the JS
object then carries `undefined` in that slot. -/
structure Headers where
  authorization : String
  xPwaInstallId : Option String
  contentType : String
deriving DecidableEq, Repr

/-- `getAuthHeaders` (api-client.js lines 153-168): reads `auth_state`
and throws when the record is absent or `accessToken` is falsy
(absent or empty string); otherwise reads `install_id` (unvalidated)
and builds the three headers. -/
def getAuthHeaders (s : ClientState) : Except String Headers :=
  match s.store.auth_state with
  | none => .error notAuthMsg
  | some a =>
    match a.accessToken with
    | none => .error notAuthMsg
    | some tok =>
      if tok = "" then .error notAuthMsg
      else
        .ok { authorization := "Bearer " ++ tok,
              xPwaInstallId := s.store.install_id,
              contentType := "application/json" }

/-- `authenticatedRequest` (api-client.js lines 173-188): builds auth
headers, failing fast (and performing zero fetch attempts) when
`getAuthHeaders` throws; otherwise delegates to `apiFetch` against
`API_BASE_URL ++ endpoint` with the merged options (the merged headers
travel to the server abstracted by `ar`). -/
def authenticatedRequest (ar : Nat → FetchOutcome) (endpoint : String)
    (s : ClientState) : FetchResult :=
  match getAuthHeaders s with
  | .error e => { state := s, delays := [], calls := 0, result := .thrown e }
  | .ok _ => apiFetch ar s

/-- `setInDB(db, "auth_state", a)` (lines 265-273): overwrites the
stored AuthState record and records the write in the `puts` trace. -/
def setInDB_auth_state (s : ClientState) (a : AuthState) : ClientState :=
  { s with store := { s.store with auth_state := some a },
           puts := s.puts ++ [a] }

instance {ε α : Type} [DecidableEq ε] [DecidableEq α] :
    DecidableEq (Except ε α) := fun a b =>
  match a, b with
  | .error x, .error y =>
    if h : x = y then .isTrue (h ▸ rfl)
    else .isFalse (fun hh => h (Except.error.inj hh))
  | .error _, .ok _ => .isFalse (fun hh => Except.noConfusion hh)
  | .ok _, .error _ => .isFalse (fun hh => Except.noConfusion hh)
  | .ok x, .ok y =>
    if h : x = y then .isTrue (h ▸ rfl)
    else .isFalse (fun hh => h (Except.ok.inj hh))

/-- Result of a run of `refreshAccessToken`: final state, backoff
delays, fetch attempts made, and either the thrown error message or the
returned `data.access_token` (which is `undefined` when the success
body lacks the field). -/
structure RefreshResult where
  state : ClientState
  delays : List Nat
  calls : Nat
  result : Except String (Option String)
deriving DecidableEq, Repr

/-- `refreshAccessToken` (api-client.js lines 193-238).
Missing/falsy refresh token: invalidate with the missing-token reason
and throw (lines 197-200).  Otherwise POST to `/auth/refresh` through
`apiFetch`; if that throws, the catch at line 233 invalidates with the
generic reason and rethrows.  A non-ok response invalidates with the
body's reason and throws the generic message (lines 213-220), which the
same catch catches, invalidating a second time.  On success the parsed
tokens are spread over the old record and stored (lines 222-230); a
body that fails to parse makes `response.json()` reject into the catch.
An `undefined` return from `apiFetch` (impossible with `maxRetries =
3`) would make `response.ok` throw a TypeError into the catch. -/
def refreshAccessToken (ar : Nat → FetchOutcome) (s : ClientState) :
    RefreshResult :=
  match s.store.auth_state with
  | none =>
    { state := clearAuthAndRedirect false noRefreshTokenMsg s,
      delays := [], calls := 0, result := .error noRefreshTokenMsg }
  | some a =>
    match a.refreshToken with
    | none =>
      { state := clearAuthAndRedirect false noRefreshTokenMsg s,
        delays := [], calls := 0, result := .error noRefreshTokenMsg }
    | some rt =>
      if rt = "" then
        { state := clearAuthAndRedirect false noRefreshTokenMsg s,
          delays := [], calls := 0, result := .error noRefreshTokenMsg }
      else
        let f := apiFetch ar s
        match f.result with
        | .thrown msg =>
          { state := clearAuthAndRedirect false refreshFailMsg f.state,
            delays := f.delays, calls := f.calls, result := .error msg }
        | .undef =>
          { state := clearAuthAndRedirect false refreshFailMsg f.state,
            delays := f.delays, calls := f.calls,
            result := .error "Cannot read properties of undefined (reading 'ok')" }
        | .ok resp =>
          if resp.ok = true then
            match resp.body with
            | none =>
              { state := clearAuthAndRedirect false refreshFailMsg f.state,
                delays := f.delays, calls := f.calls,
                result := .error "Unexpected end of JSON input" }
            | some data =>
              { state := setInDB_auth_state f.state
                  { accessToken := data.access_token,
                    refreshToken := data.refresh_token,
                    other := a.other },
                delays := f.delays, calls := f.calls,
                result := .ok data.access_token }
          else
            let s1 := clearAuthAndRedirect false (reasonRefresh resp) f.state
            { state := clearAuthAndRedirect false refreshFailMsg s1,
              delays := f.delays, calls := f.calls,
              result := .error refreshFailMsg }

/-! ### Example fixtures used by witnesses and counterexamples -/

/-- The AuthState record stored in the logged-in example state. -/
def aLoggedIn : AuthState :=
  { accessToken := some "at1", refreshToken := some "rt1",
    other := [("deviceId", "d1")] }

/-- A logged-in browser state: tokens stored, an extra field on the
AuthState record, session flags set, in-memory key present. -/
def sLoggedIn : ClientState :=
  { store :=
      { auth_state := some aLoggedIn,
        install_id := some "iid1" },
    authValidated := true, authValidatedAt := true,
    devicePrivateKey := some "pk1",
    navigations := [], invalidations := [], puts := [] }

/-- A logged-out browser state: everything already cleared. -/
def sLoggedOut : ClientState :=
  { store := { auth_state := none, install_id := none },
    authValidated := false, authValidatedAt := false,
    devicePrivateKey := none,
    navigations := [], invalidations := [], puts := [] }

/-- A 401 response whose body carries a server reason. -/
def respRevoked : Response :=
  { status := 401,
    body := some { error := some "Device revoked",
                   access_token := none, refresh_token := none } }

/-- A successful refresh response carrying fresh tokens. -/
def respFresh : Response :=
  { status := 200,
    body := some { error := none,
                   access_token := some "at2", refresh_token := some "rt2" } }

/-- A non-2xx, non-401 refresh response with a server reason. -/
def respBlocked : Response :=
  { status := 403,
    body := some { error := some "Admin key blocked",
                   access_token := none, refresh_token := none } }

/-! ### Helper lemmas -/

theorem clearAuthAndRedirect_false (r : String) (s : ClientState) :
    clearAuthAndRedirect false r s =
      { store := { auth_state := none, install_id := none },
        authValidated := false, authValidatedAt := false,
        devicePrivateKey := none,
        navigations := s.navigations ++ ["./index.html"],
        invalidations := s.invalidations ++ [r],
        puts := s.puts } := rfl

theorem clearAuthAndRedirect_true (r : String) (s : ClientState) :
    clearAuthAndRedirect true r s =
      { s with navigations := s.navigations ++ ["./index.html"],
               invalidations := s.invalidations ++ [r] } := rfl

theorem catchStep_inl_calls (a : Nat) (b : Bool) (m : String)
    (s : ClientState) (r : FetchResult)
    (h : catchStep a b m s = Sum.inl r) : r.calls = 1 := by
  unfold catchStep at h
  split at h
  · cases h; rfl
  · split at h
    · split at h <;> (cases h; rfl)
    · cases h

theorem catchStep_inr_eq (a : Nat) (b : Bool) (m : String)
    (s s2 : ClientState) (h : catchStep a b m s = Sum.inr s2) : s2 = s := by
  unfold catchStep at h
  split at h
  · cases h
  · split at h
    · split at h <;> cases h
    · cases h; rfl

theorem catchStep_redirect (a : Nat) (s1 : ClientState) :
    catchStep a false redirectMsg s1 =
      Sum.inl { state := s1, delays := [], calls := 1,
                result := .thrown redirectMsg } := by
  unfold catchStep
  rw [if_neg (by simp), if_pos (Or.inl rfl), if_neg (by decide)]

theorem catchStep_retry (a : Nat) (b : Bool) (m : String) (s1 : ClientState)
    (ha : a ≠ maxRetries - 1) (hm : m ≠ redirectMsg) :
    catchStep a b m s1 = Sum.inr s1 := by
  unfold catchStep
  rw [if_neg (by simp [ha]), if_neg (by simp [ha, hm])]

theorem catchStep_abort_last (m : String) (s : ClientState) :
    catchStep (maxRetries - 1) true m s =
      Sum.inl { state := s, delays := [], calls := 1,
                result := .thrown timeoutMsg } := by
  unfold catchStep
  rw [if_pos ⟨rfl, rfl⟩]

theorem catchStep_fail_last (m : String) (s : ClientState) :
    catchStep (maxRetries - 1) false m s =
      Sum.inl { state := s, delays := [], calls := 1,
                result := .thrown
                  (if includes m "fetch" = true then networkFailMsg else m) } := by
  unfold catchStep
  rw [if_neg (by simp), if_pos (Or.inr rfl)]
  split <;> simp_all

theorem apiFetchAux_success (ar : Nat → FetchOutcome) (attempt fuel : Nat)
    (s : ClientState) (resp : Response) (h : ar attempt = .success resp)
    (hne : resp.status ≠ 401) :
    apiFetchAux ar attempt (fuel + 1) s =
      { state := s, delays := [], calls := 1, result := .ok resp } := by
  simp [apiFetchAux, h, hne]

theorem apiFetchAux_401 (ar : Nat → FetchOutcome) (attempt fuel : Nat)
    (s : ClientState) (resp : Response) (h : ar attempt = .success resp)
    (hst : resp.status = 401) :
    apiFetchAux ar attempt (fuel + 1) s =
      { state := clearAuthAndRedirect false (reason401 resp) s,
        delays := [], calls := 1, result := .thrown redirectMsg } := by
  simp [apiFetchAux, h, hst, catchStep_redirect]

theorem apiFetchAux_retry (ar : Nat → FetchOutcome) (attempt fuel : Nat)
    (s : ClientState) (hr : retryableB (ar attempt) = true)
    (ha : attempt ≠ maxRetries - 1) :
    apiFetchAux ar attempt (fuel + 1) s =
      { state := (apiFetchAux ar (attempt + 1) fuel s).state,
        delays := baseDelay * 2 ^ attempt ::
          (apiFetchAux ar (attempt + 1) fuel s).delays,
        calls := (apiFetchAux ar (attempt + 1) fuel s).calls + 1,
        result := (apiFetchAux ar (attempt + 1) fuel s).result } := by
  cases h : ar attempt with
  | success resp => rw [h] at hr; cases hr
  | abort =>
    simp [apiFetchAux, h, catchStep_retry attempt true abortErrMessage s ha
      (by decide)]
  | failure m =>
    rw [h] at hr
    have hm : m ≠ redirectMsg := by simpa [retryableB] using hr
    simp [apiFetchAux, h, catchStep_retry attempt false m s ha hm]

theorem apiFetchAux_abort_last (ar : Nat → FetchOutcome) (fuel : Nat)
    (s : ClientState) (h : ar (maxRetries - 1) = .abort) :
    apiFetchAux ar (maxRetries - 1) (fuel + 1) s =
      { state := s, delays := [], calls := 1, result := .thrown timeoutMsg } := by
  simp [apiFetchAux, h, catchStep_abort_last]

theorem apiFetchAux_fail_last (ar : Nat → FetchOutcome) (fuel : Nat)
    (s : ClientState) (m : String) (h : ar (maxRetries - 1) = .failure m) :
    apiFetchAux ar (maxRetries - 1) (fuel + 1) s =
      { state := s, delays := [], calls := 1,
        result := .thrown
          (if includes m "fetch" = true then networkFailMsg else m) } := by
  simp [apiFetchAux, h, catchStep_fail_last]

theorem apiFetchAux_calls_le (ar : Nat → FetchOutcome) :
    ∀ fuel attempt s, (apiFetchAux ar attempt fuel s).calls ≤ fuel := by
  intro fuel
  induction fuel with
  | zero => intro _ _; exact Nat.le_refl 0
  | succ n ih =>
    intro attempt s
    unfold apiFetchAux
    split
    · split
      · split
        · next r hc => rw [catchStep_inl_calls _ _ _ _ _ hc]; omega
        · next s2 hc =>
          exact Nat.succ_le_succ (ih (attempt + 1) s2)
      · exact Nat.le_add_left 1 n
    · split
      · next r hc => rw [catchStep_inl_calls _ _ _ _ _ hc]; omega
      · next s2 hc => exact Nat.succ_le_succ (ih (attempt + 1) s2)
    · split
      · next r hc => rw [catchStep_inl_calls _ _ _ _ _ hc]; omega
      · next s2 hc => exact Nat.succ_le_succ (ih (attempt + 1) s2)

theorem clear_invalidations (t : Bool) (r : String) (s : ClientState) :
    (clearAuthAndRedirect t r s).invalidations = s.invalidations ++ [r] := by
  cases t <;> rfl

theorem clear_puts (t : Bool) (r : String) (s : ClientState) :
    (clearAuthAndRedirect t r s).puts = s.puts := by
  cases t <;> rfl

theorem clear_navigations (t : Bool) (r : String) (s : ClientState) :
    (clearAuthAndRedirect t r s).navigations =
      s.navigations ++ ["./index.html"] := by
  cases t <;> rfl

theorem apiFetch_calls_pos_aux (ar : Nat → FetchOutcome) (attempt fuel : Nat)
    (s : ClientState) : 1 ≤ (apiFetchAux ar attempt (fuel + 1) s).calls := by
  unfold apiFetchAux
  split
  · split
    · split
      · next r hc => rw [catchStep_inl_calls _ _ _ _ _ hc]
      · next s2 hc => exact Nat.succ_le_succ (Nat.zero_le _)
    · exact Nat.le_refl 1
  · split
    · next r hc => rw [catchStep_inl_calls _ _ _ _ _ hc]
    · next s2 hc => exact Nat.succ_le_succ (Nat.zero_le _)
  · split
    · next r hc => rw [catchStep_inl_calls _ _ _ _ _ hc]
    · next s2 hc => exact Nat.succ_le_succ (Nat.zero_le _)

theorem apiFetch_calls_pos (ar : Nat → FetchOutcome) (s : ClientState) :
    1 ≤ (apiFetch ar s).calls :=
  apiFetch_calls_pos_aux ar 0 2 s

theorem reason401_of_none (resp : Response) (h : resp.body = none) :
    reason401 resp = "Brak autoryzacji" := by
  simp [reason401, h]

theorem reason401_of_some (resp : Response) (j : Json) (e : String)
    (hb : resp.body = some j) (he : j.error = some e) (hne : e ≠ "") :
    reason401 resp = e := by
  simp [reason401, jsOr, hb, he, hne]

/-! ### Claims -/

/-- C7 counterexample: `translateErrorMessage` is not the identity on
unknown strings.  `"toString"` is in no table entry, yet the JS
property read `translations["toString"]` finds the inherited — truthy —
`Object.prototype.toString` function, so the `||` returns that function
rather than the input string. -/
theorem C7_not_identity_on_unknowns_counterexample :
    translateErrorMessage "toString" ≠ JsValue.str "toString" ∧
    translateErrorMessage "toString" = JsValue.inherited "toString" ∧
    translations.lookup "toString" = none := by
  decide

/-- C7 (amended): `translateErrorMessage` is a total function with no
side effects and no failure mode; every identifier in the translation
table returns its exact mapped localized string, and every other input
string that is not an `Object.prototype` property name is returned
unchanged — but for the `Object.prototype` property names (such as
`toString`, `valueOf`, `constructor`) the inherited truthy non-string
prototype value is returned instead of the input. -/
theorem C7_translate_total :
    (∀ p ∈ translations, translateErrorMessage p.1 = JsValue.str p.2) ∧
    (∀ e, translations.lookup e = none → e ∉ objectPrototypeProps →
      translateErrorMessage e = JsValue.str e) ∧
    (∀ e, translations.lookup e = none → e ∈ objectPrototypeProps →
      translateErrorMessage e = JsValue.inherited e) := by
  refine ⟨by decide, fun e he hp => ?_, fun e he hp => ?_⟩
  · simp [translateErrorMessage, he, hp]
  · simp [translateErrorMessage, he, hp]

/-- Witness for C7 at a mapped identifier, a plain unknown one, and a
prototype property name. -/
theorem C7_translate_total_witness :
    translateErrorMessage "Timeout" =
      JsValue.str "Przekroczono limit czasu połączenia" ∧
    translateErrorMessage "Some unknown identifier" =
      JsValue.str "Some unknown identifier" ∧
    translateErrorMessage "valueOf" = JsValue.inherited "valueOf" :=
  ⟨C7_translate_total.1 ("Timeout", "Przekroczono limit czasu połączenia")
      (by decide),
   C7_translate_total.2.1 "Some unknown identifier" (by decide) (by decide),
   C7_translate_total.2.2 "valueOf" (by decide) (by decide)⟩

/-- C8: `clearAuthAndRedirect` is idempotent: invoked on an
already-logged-out state (store empty, flags absent, no in-memory key)
it cannot throw (it is a total function, for either behaviour of the
store-clear step) and leaves the cleared data unchanged, still
performing the final navigation (and logging the reason). -/
theorem C8_idempotent (t : Bool) (r : String) (s : ClientState)
    (h1 : s.store.auth_state = none) (h2 : s.store.install_id = none)
    (h3 : s.authValidated = false) (h4 : s.authValidatedAt = false)
    (h5 : s.devicePrivateKey = none) :
    clearAuthAndRedirect t r s =
      { s with navigations := s.navigations ++ ["./index.html"],
               invalidations := s.invalidations ++ [r] } := by
  obtain ⟨⟨sa, si⟩, v1, v2, k, nav, inv, p⟩ := s
  have e1 : sa = none := h1
  have e2 : si = none := h2
  have e3 : v1 = false := h3
  have e4 : v2 = false := h4
  have e5 : k = none := h5
  subst e1; subst e2; subst e3; subst e4; subst e5
  cases t <;> rfl

/-- Witness for C8 on the concrete logged-out state, for both behaviours
of the store-clear step. -/
theorem C8_idempotent_witness :
    clearAuthAndRedirect false "Sesja wygasła" sLoggedOut =
      { sLoggedOut with navigations := ["./index.html"],
                        invalidations := ["Sesja wygasła"] } ∧
    clearAuthAndRedirect true "Sesja wygasła" sLoggedOut =
      { sLoggedOut with navigations := ["./index.html"],
                        invalidations := ["Sesja wygasła"] } :=
  ⟨C8_idempotent false "Sesja wygasła" sLoggedOut rfl rfl rfl rfl rfl,
   C8_idempotent true "Sesja wygasła" sLoggedOut rfl rfl rfl rfl rfl⟩

/-- C1 counterexample: when the store-clear step throws, the whole
clearing sequence is inside one try/catch (lines 21-45), so the session
validation flags and the in-memory key are NOT cleared — contradicting
the claim that after `clearAuthAndRedirect` completes the session flags
are absent even when the store-clear step throws, with each step
attempted independently. -/
theorem C1_steps_not_independent_counterexample :
    (clearAuthAndRedirect true "Sesja wygasła" sLoggedIn).authValidated = true ∧
    (clearAuthAndRedirect true "Sesja wygasła" sLoggedIn).authValidatedAt = true ∧
    (clearAuthAndRedirect true "Sesja wygasła" sLoggedIn).store.auth_state ≠ none ∧
    (clearAuthAndRedirect true "Sesja wygasła" sLoggedIn).devicePrivateKey ≠ none := by
  decide

/-- C1 (amended): navigation to the entry surface always occurs as the
final step, even when the store-clear step throws (the failure is
absorbed); when the store-clear step does not throw, the credential
store is empty, both session validation flags are absent and the
in-memory secret is cleared after the call.  (A store-clear failure
skips the flag and secret clears: the steps share one error handler.) -/
theorem C1_clear_and_navigate (t : Bool) (r : String) (s : ClientState) :
    (clearAuthAndRedirect t r s).navigations =
      s.navigations ++ ["./index.html"] ∧
    (t = false →
      (clearAuthAndRedirect t r s).store =
        { auth_state := none, install_id := none } ∧
      (clearAuthAndRedirect t r s).authValidated = false ∧
      (clearAuthAndRedirect t r s).authValidatedAt = false ∧
      (clearAuthAndRedirect t r s).devicePrivateKey = none) := by
  constructor
  · exact clear_navigations t r s
  · intro ht; subst ht; exact ⟨rfl, rfl, rfl, rfl⟩

/-- Witness for C1 on the concrete logged-in state with a non-throwing
store clear. -/
theorem C1_clear_and_navigate_witness :
    (clearAuthAndRedirect false "Sesja wygasła" sLoggedIn).navigations =
      ["./index.html"] ∧
    (clearAuthAndRedirect false "Sesja wygasła" sLoggedIn).store =
      { auth_state := none, install_id := none } ∧
    (clearAuthAndRedirect false "Sesja wygasła" sLoggedIn).authValidated = false :=
  ⟨(C1_clear_and_navigate false "Sesja wygasła" sLoggedIn).1,
   ((C1_clear_and_navigate false "Sesja wygasła" sLoggedIn).2 rfl).1,
   ((C1_clear_and_navigate false "Sesja wygasła" sLoggedIn).2 rfl).2.1⟩

/-- C6: `authenticatedRequest` with no stored AuthState, or an AuthState
whose access token is absent (or empty, falsy in JS), throws the
not-authenticated error at once: zero fetch attempts, no delays, state
untouched. -/
theorem C6_fail_fast (ar : Nat → FetchOutcome) (endpoint : String)
    (s : ClientState)
    (h : s.store.auth_state = none ∨ ∃ a, s.store.auth_state = some a ∧
      (a.accessToken = none ∨ a.accessToken = some "")) :
    authenticatedRequest ar endpoint s =
      { state := s, delays := [], calls := 0, result := .thrown notAuthMsg } := by
  rcases h with h | ⟨a, ha, h'⟩
  · simp [authenticatedRequest, getAuthHeaders, h]
  · rcases h' with h' | h' <;>
      simp [authenticatedRequest, getAuthHeaders, ha, h']

/-- Witness for C6 on the logged-out state. -/
theorem C6_fail_fast_witness :
    authenticatedRequest (fun _ => .success respFresh) "/api/data" sLoggedOut =
      { state := sLoggedOut, delays := [], calls := 0,
        result := .thrown notAuthMsg } :=
  C6_fail_fast (fun _ => .success respFresh) "/api/data" sLoggedOut (Or.inl rfl)

/-- C10: with an access token stored but no `install_id` record,
`getAuthHeaders` does not fail: it returns headers whose
`X-PWA-Install-ID` slot holds the absent (undefined) value, and
`authenticatedRequest` proceeds to the network layer (at least one
fetch attempt is made). -/
theorem C10_install_id_unvalidated (ar : Nat → FetchOutcome)
    (endpoint : String) (s : ClientState) (a : AuthState) (tok : String)
    (hs : s.store.auth_state = some a) (ht : a.accessToken = some tok)
    (ht' : tok ≠ "") (hi : s.store.install_id = none) :
    getAuthHeaders s = .ok { authorization := "Bearer " ++ tok,
                             xPwaInstallId := none,
                             contentType := "application/json" } ∧
    1 ≤ (authenticatedRequest ar endpoint s).calls := by
  have hh : getAuthHeaders s = .ok
      { authorization := "Bearer " ++ tok,
        xPwaInstallId := none,
        contentType := "application/json" } := by
    unfold getAuthHeaders
    rw [hs]
    simp only []
    rw [ht]
    simp only []
    rw [if_neg ht', hi]
  refine ⟨hh, ?_⟩
  unfold authenticatedRequest
  rw [hh]
  exact apiFetch_calls_pos ar s

/-- Witness for C10: logged in but with no install identifier stored. -/
theorem C10_install_id_unvalidated_witness :
    getAuthHeaders
      { sLoggedIn with store := { sLoggedIn.store with install_id := none } } =
      .ok { authorization := "Bearer at1", xPwaInstallId := none,
            contentType := "application/json" } ∧
    1 ≤ (authenticatedRequest (fun _ => .success respFresh) "/api/data"
      { sLoggedIn with store := { sLoggedIn.store with install_id := none } }).calls :=
  C10_install_id_unvalidated (fun _ => .success respFresh) "/api/data"
    { sLoggedIn with store := { sLoggedIn.store with install_id := none } }
    { accessToken := some "at1", refreshToken := some "rt1",
      other := [("deviceId", "d1")] }
    "at1" rfl rfl (by decide) rfl

/-- C2: when attempt `k` (with retryable failures before it) receives a
401 response, `apiFetch` performs exactly `k + 1` fetch attempts —
no retry follows the 401, whatever budget remains — exactly one
invalidation is recorded, carrying the server-provided reason (the
body's nonempty `error` field) or the generic unauthorized fallback
when the body does not parse, and the call throws the
redirecting-to-activation error. -/
theorem C2_401_terminal (ar : Nat → FetchOutcome) (s : ClientState) (k : Nat)
    (resp : Response) (hk : k < 3)
    (hpre : ∀ i, i < k → retryableB (ar i) = true)
    (h401 : ar k = .success resp) (hst : resp.status = 401) :
    (apiFetch ar s).calls = k + 1 ∧
    (apiFetch ar s).state.invalidations =
      s.invalidations ++ [reason401 resp] ∧
    (apiFetch ar s).result = .thrown redirectMsg ∧
    (resp.body = none → reason401 resp = "Brak autoryzacji") ∧
    (∀ j e, resp.body = some j → j.error = some e → e ≠ "" →
      reason401 resp = e) := by
  interval_cases k
  · have e0 : apiFetch ar s =
        { state := clearAuthAndRedirect false (reason401 resp) s,
          delays := [], calls := 1, result := .thrown redirectMsg } :=
      apiFetchAux_401 ar 0 2 s resp h401 hst
    refine ⟨?_, ?_, ?_, reason401_of_none resp,
      fun j e => reason401_of_some resp j e⟩
    · rw [e0]
    · rw [e0]; exact clear_invalidations false _ s
    · rw [e0]
  · have e1 : apiFetch ar s =
        { state := (apiFetchAux ar 1 2 s).state,
          delays := 500 :: (apiFetchAux ar 1 2 s).delays,
          calls := (apiFetchAux ar 1 2 s).calls + 1,
          result := (apiFetchAux ar 1 2 s).result } :=
      apiFetchAux_retry ar 0 2 s (hpre 0 (by omega)) (by decide)
    have e2 : apiFetchAux ar 1 2 s =
        { state := clearAuthAndRedirect false (reason401 resp) s,
          delays := [], calls := 1, result := .thrown redirectMsg } :=
      apiFetchAux_401 ar 1 1 s resp h401 hst
    refine ⟨?_, ?_, ?_, reason401_of_none resp,
      fun j e => reason401_of_some resp j e⟩
    · rw [e1, e2]
    · rw [e1, e2]; exact clear_invalidations false _ s
    · rw [e1, e2]
  · have e1 : apiFetch ar s =
        { state := (apiFetchAux ar 1 2 s).state,
          delays := 500 :: (apiFetchAux ar 1 2 s).delays,
          calls := (apiFetchAux ar 1 2 s).calls + 1,
          result := (apiFetchAux ar 1 2 s).result } :=
      apiFetchAux_retry ar 0 2 s (hpre 0 (by omega)) (by decide)
    have e2 : apiFetchAux ar 1 2 s =
        { state := (apiFetchAux ar 2 1 s).state,
          delays := 1000 :: (apiFetchAux ar 2 1 s).delays,
          calls := (apiFetchAux ar 2 1 s).calls + 1,
          result := (apiFetchAux ar 2 1 s).result } :=
      apiFetchAux_retry ar 1 1 s (hpre 1 (by omega)) (by decide)
    have e3 : apiFetchAux ar 2 1 s =
        { state := clearAuthAndRedirect false (reason401 resp) s,
          delays := [], calls := 1, result := .thrown redirectMsg } :=
      apiFetchAux_401 ar 2 0 s resp h401 hst
    refine ⟨?_, ?_, ?_, reason401_of_none resp,
      fun j e => reason401_of_some resp j e⟩
    · rw [e1, e2, e3]
    · rw [e1, e2, e3]; exact clear_invalidations false _ s
    · rw [e1, e2, e3]

/-- Witness for C2: a timeout on attempt 1, a 401 with a server reason
on attempt 2 — two attempts total, one invalidation, no third attempt
despite remaining budget. -/
theorem C2_401_terminal_witness :
    (apiFetch (fun i => if i = 0 then .abort else .success respRevoked)
      sLoggedIn).calls = 2 ∧
    (apiFetch (fun i => if i = 0 then .abort else .success respRevoked)
      sLoggedIn).state.invalidations = ["Device revoked"] ∧
    (apiFetch (fun i => if i = 0 then .abort else .success respRevoked)
      sLoggedIn).result = .thrown redirectMsg := by
  have h := C2_401_terminal
    (fun i => if i = 0 then .abort else .success respRevoked) sLoggedIn 1
    respRevoked (by omega)
    (fun i hi => by interval_cases i; decide) rfl rfl
  exact ⟨h.1, h.2.1.trans (by decide), h.2.2.1⟩

/-- C4: `apiFetch` never performs more than 3 fetch attempts, and when
every attempt fails with a retryable error it performs exactly 3
attempts (never 4), throws, and sleeps exactly the exponential backoff
delays 500 ms before attempt 2 and 1000 ms before attempt 3. -/
theorem C4_attempt_budget (ar : Nat → FetchOutcome) (s : ClientState) :
    (apiFetch ar s).calls ≤ 3 ∧
    ((∀ i, i < 3 → retryableB (ar i) = true) →
      (apiFetch ar s).calls = 3 ∧
      (∃ m, (apiFetch ar s).result = .thrown m) ∧
      (apiFetch ar s).delays = [500, 1000]) := by
  constructor
  · exact apiFetchAux_calls_le ar 3 0 s
  · intro h
    have e1 : apiFetch ar s =
        { state := (apiFetchAux ar 1 2 s).state,
          delays := 500 :: (apiFetchAux ar 1 2 s).delays,
          calls := (apiFetchAux ar 1 2 s).calls + 1,
          result := (apiFetchAux ar 1 2 s).result } :=
      apiFetchAux_retry ar 0 2 s (h 0 (by omega)) (by decide)
    have e2 : apiFetchAux ar 1 2 s =
        { state := (apiFetchAux ar 2 1 s).state,
          delays := 1000 :: (apiFetchAux ar 2 1 s).delays,
          calls := (apiFetchAux ar 2 1 s).calls + 1,
          result := (apiFetchAux ar 2 1 s).result } :=
      apiFetchAux_retry ar 1 1 s (h 1 (by omega)) (by decide)
    cases h2 : ar 2 with
    | success resp =>
      have hx := h 2 (by omega)
      rw [h2] at hx
      simp [retryableB] at hx
    | abort =>
      have e3 : apiFetchAux ar 2 1 s =
          { state := s, delays := [], calls := 1,
            result := .thrown timeoutMsg } :=
        apiFetchAux_abort_last ar 0 s h2
      rw [e1, e2, e3]
      exact ⟨rfl, ⟨timeoutMsg, rfl⟩, rfl⟩
    | failure m =>
      have e3 : apiFetchAux ar 2 1 s =
          { state := s, delays := [], calls := 1,
            result := .thrown
              (if includes m "fetch" = true then networkFailMsg else m) } :=
        apiFetchAux_fail_last ar 0 s m h2
      rw [e1, e2, e3]
      exact ⟨rfl, ⟨_, rfl⟩, rfl⟩

/-- Witness for C4: every attempt is a connectivity failure. -/
theorem C4_attempt_budget_witness :
    (apiFetch (fun _ => .failure "Failed to fetch") sLoggedIn).calls ≤ 3 ∧
    (apiFetch (fun _ => .failure "Failed to fetch") sLoggedIn).calls = 3 ∧
    (apiFetch (fun _ => .failure "Failed to fetch") sLoggedIn).delays =
      [500, 1000] := by
  have h := C4_attempt_budget (fun _ => .failure "Failed to fetch") sLoggedIn
  exact ⟨h.1, (h.2 (fun i _ => by decide)).1, (h.2 (fun i _ => by decide)).2.2⟩

/-- C5: when all retry attempts are exhausted and the last attempt
fails with an error of message `m`, `apiFetch` re-raises it: as the
localized network-failure message when `m` contains "fetch"
(a fetch/connectivity failure), and as `m` unchanged otherwise. -/
theorem C5_last_error_reraised (ar : Nat → FetchOutcome) (s : ClientState)
    (m : String) (h0 : retryableB (ar 0) = true)
    (h1 : retryableB (ar 1) = true) (h2 : ar 2 = .failure m) :
    (apiFetch ar s).result =
      .thrown (if includes m "fetch" = true then networkFailMsg else m) := by
  have e1 : apiFetch ar s =
      { state := (apiFetchAux ar 1 2 s).state,
        delays := 500 :: (apiFetchAux ar 1 2 s).delays,
        calls := (apiFetchAux ar 1 2 s).calls + 1,
        result := (apiFetchAux ar 1 2 s).result } :=
    apiFetchAux_retry ar 0 2 s h0 (by decide)
  have e2 : apiFetchAux ar 1 2 s =
      { state := (apiFetchAux ar 2 1 s).state,
        delays := 1000 :: (apiFetchAux ar 2 1 s).delays,
        calls := (apiFetchAux ar 2 1 s).calls + 1,
        result := (apiFetchAux ar 2 1 s).result } :=
    apiFetchAux_retry ar 1 1 s h1 (by decide)
  have e3 : apiFetchAux ar 2 1 s =
      { state := s, delays := [], calls := 1,
        result := .thrown
          (if includes m "fetch" = true then networkFailMsg else m) } :=
    apiFetchAux_fail_last ar 0 s m h2
  rw [e1, e2, e3]

/-- Witness for C5: a connectivity failure is translated, any other
message is re-raised unchanged. -/
theorem C5_last_error_reraised_witness :
    (apiFetch (fun _ => .failure "Failed to fetch") sLoggedOut).result =
      .thrown networkFailMsg ∧
    (apiFetch (fun _ => .failure "offline") sLoggedOut).result =
      .thrown "offline" := by
  constructor
  · rw [C5_last_error_reraised (fun _ => .failure "Failed to fetch")
      sLoggedOut "Failed to fetch" (by decide) (by decide) rfl]
    decide
  · rw [C5_last_error_reraised (fun _ => .failure "offline") sLoggedOut
      "offline" (by decide) (by decide) rfl]
    decide

theorem ok_ne_401 (resp : Response) (h : Response.ok resp = true) :
    resp.status ≠ 401 := by
  intro hc
  unfold Response.ok at h
  rw [hc] at h
  simp at h

theorem reasonRefresh_of_none (resp : Response) (h : resp.body = none) :
    reasonRefresh resp = refreshFailMsg := by
  simp [reasonRefresh, h]

theorem reasonRefresh_of_some (resp : Response) (j : Json) (e : String)
    (hb : resp.body = some j) (he : j.error = some e) (hne : e ≠ "") :
    reasonRefresh resp = e := by
  simp [reasonRefresh, jsOr, hb, he, hne]

theorem refresh_ok_run (ar : Nat → FetchOutcome) (s : ClientState)
    (a : AuthState) (rt : String) (resp : Response) (data : Json)
    (hs : s.store.auth_state = some a) (hrt : a.refreshToken = some rt)
    (hrt' : rt ≠ "") (h0 : ar 0 = .success resp)
    (hok : Response.ok resp = true) (hb : resp.body = some data) :
    refreshAccessToken ar s =
      { state := setInDB_auth_state s
          { accessToken := data.access_token,
            refreshToken := data.refresh_token, other := a.other },
        delays := [], calls := 1, result := .ok data.access_token } := by
  have ef : apiFetch ar s =
      { state := s, delays := [], calls := 1, result := .ok resp } :=
    apiFetchAux_success ar 0 2 s resp h0 (ok_ne_401 resp hok)
  simp [refreshAccessToken, hs, hrt, hrt', ef, hok, hb]

theorem refresh_nonok_run (ar : Nat → FetchOutcome) (s : ClientState)
    (a : AuthState) (rt : String) (resp : Response)
    (hs : s.store.auth_state = some a) (hrt : a.refreshToken = some rt)
    (hrt' : rt ≠ "") (h0 : ar 0 = .success resp)
    (hnok : Response.ok resp = false) :
    refreshAccessToken ar s =
      { state := clearAuthAndRedirect false refreshFailMsg
          (clearAuthAndRedirect false
            (if resp.status = 401 then reason401 resp else reasonRefresh resp)
            s),
        delays := [], calls := 1,
        result := .error
          (if resp.status = 401 then redirectMsg else refreshFailMsg) } := by
  by_cases hst : resp.status = 401
  · have ef : apiFetch ar s =
        { state := clearAuthAndRedirect false (reason401 resp) s,
          delays := [], calls := 1, result := .thrown redirectMsg } :=
      apiFetchAux_401 ar 0 2 s resp h0 hst
    simp [refreshAccessToken, hs, hrt, hrt', ef, hst]
  · have ef : apiFetch ar s =
        { state := s, delays := [], calls := 1, result := .ok resp } :=
      apiFetchAux_success ar 0 2 s resp h0 hst
    simp [refreshAccessToken, hs, hrt, hrt', ef, hnok, hst]

/-- C3 counterexample: on a non-2xx refresh response the stored
AuthState is NOT left untouched — the triggered invalidation clears the
store, deleting the record that was present before the call. -/
theorem C3_authstate_not_untouched_counterexample :
    sLoggedIn.store.auth_state =
      some { accessToken := some "at1", refreshToken := some "rt1",
             other := [("deviceId", "d1")] } ∧
    (refreshAccessToken (fun _ => .success respBlocked)
      sLoggedIn).state.store.auth_state = none := by
  decide

/-- C3 (amended): on a successful refresh response,
`refreshAccessToken` overwrites only the token fields of the stored
AuthState, preserving every other field of the record and every other
component of the browser state; on a non-2xx refresh response the
refresh flow itself writes no AuthState record (the `puts` trace is
unchanged) — the store is mutated only by the triggered invalidation,
which clears it — and invalidation is triggered. -/
theorem C3_refresh_overwrites_tokens_only (ar : Nat → FetchOutcome)
    (s : ClientState) (a : AuthState) (rt : String) (resp : Response)
    (hs : s.store.auth_state = some a) (hrt : a.refreshToken = some rt)
    (hrt' : rt ≠ "") (h0 : ar 0 = .success resp) :
    (∀ data, Response.ok resp = true → resp.body = some data →
      (refreshAccessToken ar s).state =
        { s with
            store :=
              { s.store with
                  auth_state := some (AuthState.mk data.access_token
                    data.refresh_token a.other) },
            puts := s.puts ++ [AuthState.mk data.access_token
              data.refresh_token a.other] }) ∧
    (Response.ok resp = false →
      (refreshAccessToken ar s).state.puts = s.puts ∧
      (refreshAccessToken ar s).state.invalidations = s.invalidations ++
        [if resp.status = 401 then reason401 resp else reasonRefresh resp,
         refreshFailMsg] ∧
      (refreshAccessToken ar s).state.store.auth_state = none) := by
  constructor
  · intro data hok hb
    rw [refresh_ok_run ar s a rt resp data hs hrt hrt' h0 hok hb]
    rfl
  · intro hnok
    rw [refresh_nonok_run ar s a rt resp hs hrt hrt' h0 hnok]
    refine ⟨?_, ?_, rfl⟩
    · rw [clear_puts, clear_puts]
    · rw [clear_invalidations, clear_invalidations, List.append_assoc]
      rfl

/-- Witness for C3: a fresh token pair is stored with the extra field
preserved; a blocked-key response leaves the put trace empty. -/
theorem C3_refresh_overwrites_tokens_only_witness :
    (refreshAccessToken (fun _ => .success respFresh)
      sLoggedIn).state.store.auth_state =
      some { accessToken := some "at2", refreshToken := some "rt2",
             other := [("deviceId", "d1")] } ∧
    (refreshAccessToken (fun _ => .success respBlocked)
      sLoggedIn).state.puts = [] := by
  have h1 := (C3_refresh_overwrites_tokens_only
    (fun _ => .success respFresh) sLoggedIn aLoggedIn "rt1" respFresh
    rfl rfl (by decide) rfl).1
    { error := none, access_token := some "at2", refresh_token := some "rt2" }
    (by decide) rfl
  have h2 := ((C3_refresh_overwrites_tokens_only
    (fun _ => .success respBlocked) sLoggedIn aLoggedIn "rt1" respBlocked
    rfl rfl (by decide) rfl).2 (by decide)).1
  constructor
  · rw [h1]; rfl
  · rw [h2]; rfl

/-- C9: when the refresh endpoint answers with a non-success response,
the invalidation handler runs twice before the error propagates: once
with the server-provided reason (the response body's nonempty `error`
field, or the fallback — via `apiFetch`'s 401 branch when the status is
401, via the non-ok branch otherwise) and once more from the
surrounding catch with the generic refresh-failure reason. -/
theorem C9_refresh_double_invalidation (ar : Nat → FetchOutcome)
    (s : ClientState) (a : AuthState) (rt : String) (resp : Response)
    (hs : s.store.auth_state = some a) (hrt : a.refreshToken = some rt)
    (hrt' : rt ≠ "") (h0 : ar 0 = .success resp)
    (hnok : Response.ok resp = false) :
    (refreshAccessToken ar s).state.invalidations = s.invalidations ++
      [if resp.status = 401 then reason401 resp else reasonRefresh resp,
       refreshFailMsg] ∧
    (refreshAccessToken ar s).result =
      .error (if resp.status = 401 then redirectMsg else refreshFailMsg) ∧
    (∀ j e, resp.body = some j → j.error = some e → e ≠ "" →
      reason401 resp = e ∧ reasonRefresh resp = e) := by
  rw [refresh_nonok_run ar s a rt resp hs hrt hrt' h0 hnok]
  refine ⟨?_, rfl, fun j e hb he hne =>
    ⟨reason401_of_some resp j e hb he hne,
     reasonRefresh_of_some resp j e hb he hne⟩⟩
  rw [clear_invalidations, clear_invalidations, List.append_assoc]
  rfl

/-- Witness for C9: a 403 with a server reason produces the two
invalidations in order. -/
theorem C9_refresh_double_invalidation_witness :
    (refreshAccessToken (fun _ => .success respBlocked)
      sLoggedIn).state.invalidations =
      ["Admin key blocked", "Odświeżanie nie powiodło się"] ∧
    (refreshAccessToken (fun _ => .success respBlocked) sLoggedIn).result =
      .error "Odświeżanie nie powiodło się" := by
  have h := C9_refresh_double_invalidation (fun _ => .success respBlocked)
    sLoggedIn
    { accessToken := some "at1", refreshToken := some "rt1",
      other := [("deviceId", "d1")] } "rt1" respBlocked rfl rfl (by decide)
    rfl (by decide)
  exact ⟨h.1.trans (by decide), h.2.1.trans (by decide)⟩
